import Mathlib

/-!
Verification of the streaming progress decoder and session-state machine of
`src/bin/ci_tool/display_progress.py`.

The Python module reads newline-delimited JSON from stdin, renders progress,
tracks the latest session identifier, and writes a JSON state file on exit.
We embed the module shallowly:

* JSON values decoded by `json.loads` / `json.load` become the inductive
  `JValue` (numbers are modelled as integers, which covers every value this
  program reads or writes; `jobj` models the dict produced by the decoder,
  so keys are assumed already collapsed as `json.loads` does).
* Python exceptions relevant to this module become the enumeration `PyErr`;
  fallible code returns `Except PyErr _`.
* Real time (`time.time`, `datetime.now`) is not modelled: the elapsed-time
  text and the `timestamp` field are treated as opaque inputs where needed.
* The rich console is modelled by recording what is printed (flushed
  markdown chunks, echoed raw lines; status updates are counted rather than
  rendered, since the status text depends on real time).
-/

set_option autoImplicit false

namespace DisplayProgress

/-- A JSON value as produced by Python's `json.loads`. -/
inductive JValue where
  | jnull
  | jbool (b : Bool)
  | jnum (n : Int)
  | jstr (s : String)
  | jarr (xs : List JValue)
  | jobj (fields : List (String × JValue))

/-- Python exceptions that the module can raise or catch. `ioError` stands for
`IOError`/`OSError` and its subclasses other than `FileNotFoundError` (which is
handled separately where the source handles it separately). -/
inductive PyErr where
  | attributeError
  | typeError
  | ioError
  | valueError
  | unicodeDecodeError
  | keyboardInterrupt
  deriving DecidableEq, Repr

/-- Python truthiness of a decoded JSON value (`bool(v)`). -/
def pyTruthy : JValue → Bool
  | .jnull => false
  | .jbool b => b
  | .jnum n => n != 0
  | .jstr s => s != ""
  | .jarr xs => !xs.isEmpty
  | .jobj fs => !fs.isEmpty

/-- Python `v == lit` where `lit` is a string literal: true exactly for an
equal string (Python equality across types is `False` for strings). -/
def isStr (v : JValue) (s : String) : Bool :=
  match v with
  | .jstr t => t == s
  | _ => false

/-- Python `==` between hashable decoded values, as used for dict keys
(`True == 1` in Python, so bools and numbers compare by value). -/
def keyEq : JValue → JValue → Bool
  | .jnull, .jnull => true
  | .jbool a, .jbool b => a == b
  | .jbool a, .jnum b => (if a then (1 : Int) else 0) == b
  | .jnum a, .jbool b => a == (if b then (1 : Int) else 0)
  | .jnum a, .jnum b => a == b
  | .jstr a, .jstr b => a == b
  | _, _ => false

/-- Dict lookup, `d[k]` on the dict decoded into `jobj` fields: the last
binding wins, matching insertion into a Python dict. -/
def jget (fields : List (String × JValue)) (key : String) : Option JValue :=
  fields.foldl (fun acc p => if p.1 = key then some p.2 else acc) none

/-- Python `d.get(k, default)` on an object's fields. -/
def jgetD (fields : List (String × JValue)) (key : String) (dflt : JValue) : JValue :=
  (jget fields key).getD dflt

def STATE_FILE : String := "/ros_ws/.ci_fix_state.json"

def CLAUDE_STDERR_LOG : String := "/ros_ws/.claude_stderr.log"

def EVENT_DEBUG_LOG : String := "/ros_ws/.ci_fix_events.jsonl"

/-- The possible contents of the durable state-file location, at the
granularity the module observes them: `absent` raises `FileNotFoundError` on
open, `unreadable` raises another `OSError` (permissions, directory, ...),
`notJson` is bytes on which `json.load` raises `JSONDecodeError`, and
`json v` is bytes that decode to the value `v`. -/
inductive StoredState where
  | absent
  | unreadable
  | notJson
  | json (v : JValue)

/-- `read_existing_attempt_count` from the source: returns
`json.load(state_file).get("attempt_count", 0)`, with `FileNotFoundError`
and `(json.JSONDecodeError, KeyError)` handlers returning 0. Any other
`OSError` (an unreadable file) and the `AttributeError` raised by `.get` on
a decoded non-object propagate to the caller. -/
def read_existing_attempt_count : StoredState → Except PyErr JValue
  | .absent => .ok (.jnum 0)
  | .unreadable => .error .ioError
  | .notJson => .ok (.jnum 0)
  | .json (.jobj fields) => .ok (jgetD fields "attempt_count" (.jnum 0))
  | .json _ => .error .attributeError

/-- Python `x + 1` on the value returned by `read_existing_attempt_count`
(line `attempt_count = read_existing_attempt_count() + 1`): defined for
numbers and bools (`True + 1 == 2`), a `TypeError` otherwise; an error from
the read propagates. -/
def pyAdd1 : Except PyErr JValue → Except PyErr Int
  | .error e => .error e
  | .ok (.jnum n) => .ok (n + 1)
  | .ok (.jbool b) => .ok ((if b then (1 : Int) else 0) + 1)
  | .ok _ => .error .typeError

/-- Python `str.strip()` with no argument: remove leading and trailing
whitespace. (Python also strips a few rarer unicode space characters;
`Char.isWhitespace` covers the ones that occur in line-delimited JSON
streams.) Implemented on the character list so that it evaluates by
kernel reduction. -/
def pyStrip (s : String) : String :=
  ⟨((s.data.dropWhile Char.isWhitespace).reverse.dropWhile Char.isWhitespace).reverse⟩

/-- Python `sep.join(parts)`. -/
def joinSep (sep : String) : List String → String
  | [] => ""
  | [x] => x
  | x :: xs => x ++ sep ++ joinSep sep xs

/-- Minimal JSON string escaping (quotes and backslashes; other escapes do
not occur in the values this program writes). -/
def escapeJson (s : String) : String :=
  ⟨s.data.foldl
    (fun acc c =>
      acc ++ (if c = '"' then ['\\', '"'] else if c = '\\' then ['\\', '\\'] else [c]))
    []⟩

mutual

/-- Compact serialization of a decoded value, mirroring `json.dump` output
shape (the two-space indentation `json.dump(..., indent=2)` applies to nested
containers is abstracted away; only the top-level record layout below is
relied on). -/
def dumpJson : JValue → String
  | .jnull => "null"
  | .jbool b => cond b "true" "false"
  | .jnum n => toString n
  | .jstr s => "\"" ++ escapeJson s ++ "\""
  | .jarr xs => "[" ++ dumpJsonList xs ++ "]"
  | .jobj fs => "\x7b" ++ dumpJsonFields fs ++ "\x7d"

def dumpJsonList : List JValue → String
  | [] => ""
  | [x] => dumpJson x
  | x :: xs => dumpJson x ++ ", " ++ dumpJsonList xs

def dumpJsonFields : List (String × JValue) → String
  | [] => ""
  | [(k, v)] => "\"" ++ escapeJson k ++ "\": " ++ dumpJson v
  | (k, v) :: fs => "\"" ++ escapeJson k ++ "\": " ++ dumpJson v ++ ", " ++ dumpJsonFields fs

end

/-- The bytes `json.dump(state, state_file, indent=2)` produces for the state
dict built in `write_state` (`session_id`, `phase`, `attempt_count`,
`timestamp`, in that insertion order). The timestamp is an opaque input
because `datetime.now` is real time. -/
def serializeState (sid : Option JValue) (phase : String) (attempt : Int) (ts : String) : String :=
  "\x7b\n  \"session_id\": " ++ (match sid with | none => "null" | some v => dumpJson v) ++
  ",\n  \"phase\": \"" ++ escapeJson phase ++ "\"" ++
  ",\n  \"attempt_count\": " ++ toString attempt ++
  ",\n  \"timestamp\": \"" ++ escapeJson ts ++ "\"\n\x7d"

/-- A primitive filesystem operation, for stating what `write_state` does to
the durable location at the granularity a concurrent reader can observe. -/
inductive FSOp where
  | openTruncate (path : String)
  | writeData (path : String) (data : String)
  | rename (src : String) (dst : String)

/-- The operations `write_state` performs:
`open(STATE_FILE, "w")` truncates the target in place, then `json.dump`
writes the serialized record into it. There is no temporary file and no
rename. -/
def write_state_ops (sid : Option JValue) (phase : String) (attempt : Int) (ts : String) :
    List FSOp :=
  [.openTruncate STATE_FILE, .writeData STATE_FILE (serializeState sid phase attempt ts)]

/-- Whether an operation list contains a rename step. -/
def hasRename : List FSOp → Bool
  | [] => false
  | .rename _ _ :: _ => true
  | _ :: rest => hasRename rest

/-- A flat filesystem: an association of paths to contents. -/
def fsGet (fs : List (String × String)) (p : String) : Option String :=
  match fs with
  | [] => none
  | (q, c) :: rest => if q = p then some c else fsGet rest p

def fsSet (fs : List (String × String)) (p : String) (c : String) : List (String × String) :=
  (p, c) :: fs.filter (fun q => q.1 ≠ p)

def fsRemove (fs : List (String × String)) (p : String) : List (String × String) :=
  fs.filter (fun q => q.1 ≠ p)

/-- Effect of one filesystem operation. -/
def stepFS (fs : List (String × String)) : FSOp → List (String × String)
  | .openTruncate p => fsSet fs p ""
  | .writeData p d => fsSet fs p ((fsGet fs p).getD "" ++ d)
  | .rename src dst =>
      match fsGet fs src with
      | some c => fsSet (fsRemove fs src) dst c
      | none => fs

/-- The contents of `path` a concurrent reader can observe after each
operation of `ops`, starting from filesystem `fs`. -/
def observableContents (fs : List (String × String)) (ops : List FSOp) (path : String) :
    List (Option String) :=
  match ops with
  | [] => []
  | op :: rest =>
      let fs' := stepFS fs op
      fsGet fs' path :: observableContents fs' rest path

/-- Python `str(v)` on a decoded value, as interpolated by the f-strings of
`format_tool_summary` (tool names are strings in practice; the other arms
mirror Python's rendering of scalars). -/
def pyStr : JValue → String
  | .jnull => "None"
  | .jbool b => cond b "True" "False"
  | .jnum n => toString n
  | .jstr s => s
  | .jarr xs => "[" ++ dumpJsonList xs ++ "]"
  | .jobj fs => "\x7b" ++ dumpJsonFields fs ++ "\x7d"

/-- The mutable state of one run of `main`, plus a record of what has been
printed. `sessionId`, `textBuffer` and `toolCounts` are the local variables
of `main` (the buffer holds the raw `block.get("text", "")` values, the tool
counts are a dict in insertion order); `debugLog` is what has been written to
`EVENT_DEBUG_LOG`; `echoed` is what unparseable lines wrote to stderr;
`flushed` records the markdown chunks `flush_text_buffer` rendered;
`statusUpdates` counts `status.update` calls (the status text itself depends
on real time and is not modelled). -/
structure RunState where
  sessionId : Option JValue
  textBuffer : List JValue
  toolCounts : List (JValue × Nat)
  debugLog : List String
  echoed : List String
  flushed : List String
  statusUpdates : Nat

def initState : RunState :=
  { sessionId := none, textBuffer := [], toolCounts := [], debugLog := [],
    echoed := [], flushed := [], statusUpdates := 0 }

/-- Python `"".join(buffer)`: concatenates when every element is a string,
raises `TypeError` otherwise. -/
def pyJoin : List JValue → Except PyErr String
  | [] => .ok ""
  | .jstr s :: rest => (pyJoin rest).map (fun t => s ++ t)
  | _ :: _ => .error .typeError

/-- `flush_text_buffer` from the source: a no-op on an empty buffer;
otherwise join the fragments, clear the buffer, and render the joined text
as markdown when it is not pure whitespace. (`"".join` raises before the
buffer is cleared, so a failing flush mutates nothing.) -/
def flush_text_buffer (st : RunState) : Except PyErr RunState :=
  if st.textBuffer.isEmpty then .ok st
  else
    match pyJoin st.textBuffer with
    | .error e => .error e
    | .ok combined =>
        let st := { st with textBuffer := [] }
        if pyStrip combined != "" then
          .ok { st with flushed := st.flushed ++ [combined] }
        else
          .ok st

/-- Python dict keys must be hashable: lists and dicts raise `TypeError`. -/
def hashableKey : JValue → Bool
  | .jarr _ => false
  | .jobj _ => false
  | _ => true

/-- `tool_counts[name] = tool_counts.get(name, 0) + 1` on an
insertion-ordered dict: bump in place when the key is present, append
`(name, 1)` otherwise. -/
def bumpCount (counts : List (JValue × Nat)) (name : JValue) : List (JValue × Nat) :=
  match counts with
  | [] => [(name, 1)]
  | (k, n) :: rest =>
      if keyEq k name then (k, n + 1) :: rest
      else (k, n) :: bumpCount rest name

/-- One content block of an assistant message, from the loop body of
`handle_assistant_event`: `block.get` raises `AttributeError` on a
non-object block; a `text` block appends its truthy text to the buffer; a
`tool_use` block flushes the buffer, bumps the named tool's count and
updates the status. -/
def handle_block (st : RunState) (block : JValue) : Except PyErr RunState :=
  match block with
  | .jobj bf =>
      let btype := jgetD bf "type" (.jstr "")
      if isStr btype "text" then
        let text := jgetD bf "text" (.jstr "")
        if pyTruthy text then .ok { st with textBuffer := st.textBuffer ++ [text] }
        else .ok st
      else if isStr btype "tool_use" then
        match flush_text_buffer st with
        | .error e => .error e
        | .ok st1 =>
            let toolName := jgetD bf "name" (.jstr "unknown")
            if hashableKey toolName then
              .ok { st1 with toolCounts := bumpCount st1.toolCounts toolName,
                             statusUpdates := st1.statusUpdates + 1 }
            else .error .typeError
      else .ok st
  | _ => .error .attributeError

/-- Python `for block in content` over a decoded value: a list yields its
elements, a string its characters, a dict its keys; scalars raise
`TypeError`. -/
def pyIter : JValue → Except PyErr (List JValue)
  | .jarr xs => .ok xs
  | .jstr s => .ok (s.data.map (fun c => .jstr (String.singleton c)))
  | .jobj fs => .ok (fs.map (fun p => .jstr p.1))
  | _ => .error .typeError

def runBlocks : RunState → List JValue → Except PyErr RunState
  | st, [] => .ok st
  | st, b :: rest =>
      match handle_block st b with
      | .error e => .error e
      | .ok st' => runBlocks st' rest

/-- `handle_assistant_event(message, ...)` from the source: iterate the
blocks of `message.get("content", [])`. (`message` defaults to `{}` at the
call site, but a non-object `message` value raises `AttributeError`.) -/
def handle_assistant_event (message : JValue) (st : RunState) : Except PyErr RunState :=
  match message with
  | .jobj mf =>
      match pyIter (jgetD mf "content" (.jarr [])) with
      | .error e => .error e
      | .ok blocks => runBlocks st blocks
  | _ => .error .attributeError

/-- The expression `event.get("session_id") or None` on a decoded object:
the value of the `session_id` field when it is truthy, `None` otherwise.
Note it does not inspect the `type` field. -/
def objSession (fields : List (String × JValue)) : Option JValue :=
  match jget fields "session_id" with
  | some v => if pyTruthy v then some v else none
  | none => none

/-- The type dispatch of `handle_event` on `event.get("type", "")`: an
`assistant` event is handled by `handle_assistant_event` on
`event.get("message", \x7b\x7d)`; a `tool_result` event flushes the buffer and
updates the status; any other type is ignored. -/
def dispatchEvent (fields : List (String × JValue)) (st : RunState) :
    Except PyErr RunState :=
  let etype := jgetD fields "type" (.jstr "")
  if isStr etype "assistant" then
    handle_assistant_event (jgetD fields "message" (.jobj [])) st
  else if isStr etype "tool_result" then
    match flush_text_buffer st with
    | .error e => .error e
    | .ok st1 => .ok { st1 with statusUpdates := st1.statusUpdates + 1 }
  else .ok st

/-- `handle_event` from the source: extract
`event.get("session_id") or None` (an `AttributeError` on a non-dict event),
dispatch on `event.get("type", "")`, and return the updated state together
with the extracted session identifier (the extraction is pure, so computing
it before or after the dispatch is equivalent). A partially-mutated state at
the point of an uncaught fault is never observable (the run crashes without
a write or a summary), so a raising handler is modelled all-or-nothing. -/
def handle_event (event : JValue) (st : RunState) :
    Except PyErr (RunState × Option JValue) :=
  match event with
  | .jobj fields =>
      match dispatchEvent fields st with
      | .error e => .error e
      | .ok st' => .ok (st', objSession fields)
  | _ => .error .attributeError

/-- The parts list built by the loop of `format_tool_summary`:
`f"\x7bname\x7d x\x7bcount\x7d"` when a tool ran more than once, the bare
name otherwise, in dict (= first-seen) order. -/
def summary_parts (tool_counts : List (JValue × Nat)) : List String :=
  tool_counts.map (fun p => if p.2 > 1 then pyStr p.1 ++ " x" ++ toString p.2 else pyStr p.1)

/-- `format_tool_summary` from the source: `", ".join(parts)`. -/
def format_tool_summary (tool_counts : List (JValue × Nat)) : String :=
  joinSep ", " (summary_parts tool_counts)

/-- What `print_session_summary` prints, at the granularity the claims are
about: the optional `Tools:` line, and either the `Session saved (sid)`
message (when the tracked identifier is truthy) or the distinct
`No session ID captured` message. The subsequent echo of
`CLAUDE_STDERR_LOG` in the no-session arm reads an external diagnostic file
and is outside this model; elapsed time is real time and is not modelled. -/
structure Summary where
  toolsLine : Option String
  savedSession : Option JValue

def print_session_summary (sid : Option JValue) (tool_counts : List (JValue × Nat)) :
    Summary :=
  { toolsLine := if tool_counts.isEmpty then none else some (format_tool_summary tool_counts)
  , savedSession :=
      match sid with
      | some v => if pyTruthy v then some v else none
      | none => none }

/-- One line delivered by `for line in sys.stdin`: the raw text, paired with
the outcome of `json.loads` on its stripped form (`none` models
`json.JSONDecodeError`). The two components are tied together by the real
JSON grammar, which is not re-implemented here; concrete instances used
below pair a line with its actual parse. -/
structure InLine where
  text : String
  parsed : Option JValue

/-- The body of the `for line in sys.stdin` loop in `main`: strip the line,
skip it when empty, append the stripped text plus a newline to the debug
log, echo it to stderr if it fails to parse, otherwise handle the decoded
event and track a truthy session identifier. A raised error is returned
beside the state (the debug-log append precedes the raise and persists). -/
def processLine (st : RunState) (l : InLine) : RunState × Option PyErr :=
  let stripped := pyStrip l.text
  if stripped == "" then (st, none)
  else
    let st := { st with debugLog := st.debugLog ++ [stripped ++ "\n"] }
    match l.parsed with
    | none => ({ st with echoed := st.echoed ++ ["  " ++ stripped ++ "\n"] }, none)
    | some event =>
        match handle_event event st with
        | .ok (st', sid) =>
            (if sid.isSome then { st' with sessionId := sid } else st', none)
        | .error e => (st, some e)

/-- The whole `for` loop: process lines in order, stopping at the first
raised error (the state reached so far survives into the handlers of
`main`). -/
def runLoop : RunState → List InLine → RunState × Option PyErr
  | st, [] => (st, none)
  | st, l :: rest =>
      match processLine st l with
      | (st', none) => runLoop st' rest
      | (st', some e) => (st', some e)

/-- How reading the next line from stdin ends after the given lines have
been consumed: natural end-of-input, or an exception raised at the blocking
read (`KeyboardInterrupt` between line reads per the cooperative
cancellation model; `IOError`/`UnicodeDecodeError` for a broken or
undecodable pipe). -/
inductive StreamEnd where
  | eof
  | raised (e : PyErr)

/-- Which terminal phase the `except` clauses of `main` assign to a raised
error: `KeyboardInterrupt` is caught as `interrupted`;
`IOError`, `ValueError`, `UnicodeDecodeError` are caught as `stuck`;
`AttributeError` and `TypeError` match no clause and propagate. -/
def classifyPhase : PyErr → Option String
  | .keyboardInterrupt => some "interrupted"
  | .ioError => some "stuck"
  | .valueError => some "stuck"
  | .unicodeDecodeError => some "stuck"
  | .attributeError => none
  | .typeError => none

/-- The durable record `write_state` serializes (its `timestamp` field is
the wall-clock instant of the write and is not modelled). -/
structure SessionRecord where
  session_id : Option JValue
  phase : String
  attempt_count : Int

/-- The outcome of one run of `main`: the state of the local variables when
control left the loop, the value of the `phase` variable, the record given
to `write_state` (`none` when no write happened), any exception that
escaped `main`, and the printed summary (`none` when control never reached
`print_session_summary`). -/
structure RunResult where
  finalState : RunState
  phase : String
  written : Option SessionRecord
  crashed : Option PyErr
  summary : Option Summary

/-- The tail of `main` after the `try` statement: `write_state` then
`print_session_summary`. When the durable write itself fails, the exception
propagates out of `main` (there is no handler around line 204), so nothing
is written and no summary is printed. -/
def finishRun (st : RunState) (phase : String) (attempt : Int) (writeOk : Bool) : RunResult :=
  if writeOk then
    { finalState := st, phase := phase,
      written := some { session_id := st.sessionId, phase := phase, attempt_count := attempt },
      crashed := none,
      summary := some (print_session_summary st.sessionId st.toolCounts) }
  else
    { finalState := st, phase := phase, written := none, crashed := some .ioError,
      summary := none }

/-- An exception that matches no `except` clause of `main`: the run dies
with the `phase` variable still at `"fixing"`, no write and no summary. -/
def crashRun (st : RunState) (e : PyErr) : RunResult :=
  { finalState := st, phase := "fixing", written := none, crashed := some e, summary := none }

/-- `main` from the source. Inputs: the prior content of the durable
location, the lines actually delivered by stdin before it ends, how the
stream ends, and whether the durable write itself succeeds. Steps:
`attempt_count = read_existing_attempt_count() + 1` (outside the `try`, so
a raise here escapes immediately); the `for` loop; on a raised error the
`except` clauses set the phase or let the error escape; on natural
end-of-input a final `flush_text_buffer` then `phase = "completed"`; finally
`write_state` and `print_session_summary`. -/
def mainModel (prior : StoredState) (lines : List InLine) (ending : StreamEnd)
    (writeOk : Bool) : RunResult :=
  match pyAdd1 (read_existing_attempt_count prior) with
  | .error e => crashRun initState e
  | .ok attempt =>
      match runLoop initState lines with
      | (st, some e) =>
          match classifyPhase e with
          | some ph => finishRun st ph attempt writeOk
          | none => crashRun st e
      | (st, none) =>
          match ending with
          | .raised e =>
              match classifyPhase e with
              | some ph => finishRun st ph attempt writeOk
              | none => crashRun st e
          | .eof =>
              match flush_text_buffer st with
              | .ok st' => finishRun st' "completed" attempt writeOk
              | .error e =>
                  match classifyPhase e with
                  | some ph => finishRun st ph attempt writeOk
                  | none => crashRun st e

/-- The session identifier one line contributes: `none` for a blank line, an
unparseable line, or a decoded event without a truthy `session_id` field. -/
def lineSession (l : InLine) : Option JValue :=
  if pyStrip l.text == "" then none
  else
    match l.parsed with
    | some (.jobj fields) => objSession fields
    | _ => none

/-- The last truthy session identifier observed across a stream of lines
(the "latest non-empty value wins" rule). -/
def lastSessionOf (lines : List InLine) : Option JValue :=
  lines.foldl (fun acc l => ((lineSession l).orElse (fun _ => acc))) none

/-- What one input line contributes to the debug replay log: nothing for a
blank line, the stripped text plus a newline otherwise. -/
def dbgEntry (l : InLine) : Option String :=
  if pyStrip l.text == "" then none else some (pyStrip l.text ++ "\n")

/-- An input line carrying one `tool_use` content block naming `name`
(the Claude Code tool-invocation event shape from the module docstring). -/
def toolLine (name : String) : InLine :=
  { text := "x"
  , parsed := some (.jobj [("type", .jstr "assistant"),
      ("message", .jobj [("content",
        .jarr [.jobj [("type", .jstr "tool_use"), ("name", .jstr name)]])])]) }

/-- An input line for an event of unrecognized type carrying a session
identifier. -/
def sidLine (sid : String) : InLine :=
  { text := "x", parsed := some (.jobj [("type", .jstr "system"), ("session_id", .jstr sid)]) }

/-- A concrete witness stream: a session identifier appears, a
`tool_result` event carries none, a later identifier overwrites. -/
def witnessLines : List InLine :=
  [sidLine "a",
   { text := "x", parsed := some (.jobj [("type", .jstr "tool_result")]) },
   sidLine "abc"]

/-- A run state with a pending text fragment and an existing tool count,
used to exercise the `tool_result` handler at a concrete input. -/
def c10State : RunState :=
  { sessionId := none, textBuffer := [.jstr "hi"], toolCounts := [(.jstr "Bash", 2)],
    debugLog := [], echoed := [], flushed := [], statusUpdates := 5 }

/-- The result of handling a `tool_result` event from `c10State`: the buffer
is flushed and the status refreshed, the tool counts untouched. -/
def c10Out : RunState × Option JValue :=
  ({ sessionId := none, textBuffer := [], toolCounts := [(.jstr "Bash", 2)],
     debugLog := [], echoed := [], flushed := ["hi"], statusUpdates := 6 }, none)

theorem pyJoin_err : ∀ (l : List JValue) (e : PyErr), pyJoin l = .error e → e = .typeError := by
  intro l
  induction l with
  | nil => intro e h; simp [pyJoin] at h
  | cons x xs ih =>
      intro e h
      cases x with
      | jstr s =>
          cases hj : pyJoin xs with
          | ok c => simp [pyJoin, hj, Except.map] at h
          | error e' =>
              simp [pyJoin, hj, Except.map] at h
              subst h
              exact ih _ hj
      | jnull => simp [pyJoin] at h; exact h.symm
      | jbool b => simp [pyJoin] at h; exact h.symm
      | jnum n => simp [pyJoin] at h; exact h.symm
      | jarr ys => simp [pyJoin] at h; exact h.symm
      | jobj fs => simp [pyJoin] at h; exact h.symm

theorem flush_frame {st st' : RunState} (h : flush_text_buffer st = .ok st') :
    st'.sessionId = st.sessionId ∧ st'.toolCounts = st.toolCounts ∧
    st'.debugLog = st.debugLog ∧ st'.echoed = st.echoed ∧
    st'.statusUpdates = st.statusUpdates ∧ st'.textBuffer = [] := by
  unfold flush_text_buffer at h
  split at h
  · next he =>
      cases h
      exact ⟨rfl, rfl, rfl, rfl, rfl, List.isEmpty_iff.mp he⟩
  · cases hj : pyJoin st.textBuffer with
    | error e => rw [hj] at h; cases h
    | ok c =>
        rw [hj] at h
        simp only at h
        split at h <;> (cases h; exact ⟨rfl, rfl, rfl, rfl, rfl, rfl⟩)

theorem flush_err {st : RunState} {e : PyErr} (h : flush_text_buffer st = .error e) :
    e = .typeError := by
  unfold flush_text_buffer at h
  split at h
  · cases h
  · cases hj : pyJoin st.textBuffer with
    | error e' =>
        rw [hj] at h
        simp only at h
        cases h
        exact pyJoin_err _ _ hj
    | ok c =>
        rw [hj] at h
        simp only at h
        split at h <;> cases h

theorem flush_empty {st : RunState} (h : st.textBuffer = []) :
    flush_text_buffer st = .ok st := by
  unfold flush_text_buffer
  simp [h]

theorem pyIter_err {v : JValue} {e : PyErr} (h : pyIter v = .error e) : e = .typeError := by
  cases v <;> simp [pyIter] at h <;> exact h.symm

theorem handle_block_frame {st st' : RunState} {b : JValue}
    (h : handle_block st b = .ok st') :
    st'.sessionId = st.sessionId ∧ st'.debugLog = st.debugLog ∧ st'.echoed = st.echoed := by
  cases b with
  | jobj bf =>
      unfold handle_block at h
      simp only at h
      split at h
      · split at h <;> (cases h; exact ⟨rfl, rfl, rfl⟩)
      · split at h
        · cases hf : flush_text_buffer st with
          | error e => rw [hf] at h; cases h
          | ok st1 =>
              rw [hf] at h
              simp only at h
              obtain ⟨h1, _, h3, h4, _, _⟩ := flush_frame hf
              split at h
              · cases h; exact ⟨h1, h3, h4⟩
              · cases h
        · cases h; exact ⟨rfl, rfl, rfl⟩
  | jnull => cases h
  | jbool b => cases h
  | jnum n => cases h
  | jstr s => cases h
  | jarr xs => cases h

theorem handle_block_err {st : RunState} {b : JValue} {e : PyErr}
    (h : handle_block st b = .error e) :
    e = .attributeError ∨ e = .typeError := by
  cases b with
  | jobj bf =>
      unfold handle_block at h
      simp only at h
      split at h
      · split at h <;> cases h
      · split at h
        · cases hf : flush_text_buffer st with
          | error e' =>
              rw [hf] at h
              simp only at h
              cases h
              exact Or.inr (flush_err hf)
          | ok st1 =>
              rw [hf] at h
              simp only at h
              split at h
              · cases h
              · cases h; exact Or.inr rfl
        · cases h
  | jnull => cases h; exact Or.inl rfl
  | jbool b => cases h; exact Or.inl rfl
  | jnum n => cases h; exact Or.inl rfl
  | jstr s => cases h; exact Or.inl rfl
  | jarr xs => cases h; exact Or.inl rfl

theorem runBlocks_frame : ∀ (bs : List JValue) (st st' : RunState),
    runBlocks st bs = .ok st' →
    st'.sessionId = st.sessionId ∧ st'.debugLog = st.debugLog ∧ st'.echoed = st.echoed := by
  intro bs
  induction bs with
  | nil => intro st st' h; cases h; exact ⟨rfl, rfl, rfl⟩
  | cons b rest ih =>
      intro st st' h
      unfold runBlocks at h
      cases hb : handle_block st b with
      | error e => rw [hb] at h; cases h
      | ok st1 =>
          rw [hb] at h
          obtain ⟨h1, h2, h3⟩ := handle_block_frame hb
          obtain ⟨g1, g2, g3⟩ := ih st1 st' h
          exact ⟨g1.trans h1, g2.trans h2, g3.trans h3⟩

theorem runBlocks_err : ∀ (bs : List JValue) (st : RunState) (e : PyErr),
    runBlocks st bs = .error e → e = .attributeError ∨ e = .typeError := by
  intro bs
  induction bs with
  | nil => intro st e h; cases h
  | cons b rest ih =>
      intro st e h
      unfold runBlocks at h
      cases hb : handle_block st b with
      | error e' =>
          rw [hb] at h
          cases h
          exact handle_block_err hb
      | ok st1 =>
          rw [hb] at h
          exact ih st1 e h

theorem handle_assistant_frame {m : JValue} {st st' : RunState}
    (h : handle_assistant_event m st = .ok st') :
    st'.sessionId = st.sessionId ∧ st'.debugLog = st.debugLog ∧ st'.echoed = st.echoed := by
  cases m with
  | jobj mf =>
      unfold handle_assistant_event at h
      simp only at h
      cases hi : pyIter (jgetD mf "content" (.jarr [])) with
      | error e => rw [hi] at h; cases h
      | ok blocks =>
          rw [hi] at h
          exact runBlocks_frame blocks st st' h
  | jnull => cases h
  | jbool b => cases h
  | jnum n => cases h
  | jstr s => cases h
  | jarr xs => cases h

theorem handle_assistant_err {m : JValue} {st : RunState} {e : PyErr}
    (h : handle_assistant_event m st = .error e) :
    e = .attributeError ∨ e = .typeError := by
  cases m with
  | jobj mf =>
      unfold handle_assistant_event at h
      simp only at h
      cases hi : pyIter (jgetD mf "content" (.jarr [])) with
      | error e' =>
          rw [hi] at h
          cases h
          exact Or.inr (pyIter_err hi)
      | ok blocks =>
          rw [hi] at h
          exact runBlocks_err blocks st e h
  | jnull => cases h; exact Or.inl rfl
  | jbool b => cases h; exact Or.inl rfl
  | jnum n => cases h; exact Or.inl rfl
  | jstr s => cases h; exact Or.inl rfl
  | jarr xs => cases h; exact Or.inl rfl

theorem dispatch_frame {fields : List (String × JValue)} {st st' : RunState}
    (h : dispatchEvent fields st = .ok st') :
    st'.sessionId = st.sessionId ∧ st'.debugLog = st.debugLog ∧ st'.echoed = st.echoed := by
  unfold dispatchEvent at h
  simp only at h
  split at h
  · exact handle_assistant_frame h
  · split at h
    · cases hf : flush_text_buffer st with
      | error e => rw [hf] at h; cases h
      | ok st1 =>
          rw [hf] at h
          simp only at h
          cases h
          obtain ⟨h1, _, h3, h4, _, _⟩ := flush_frame hf
          exact ⟨h1, h3, h4⟩
    · cases h; exact ⟨rfl, rfl, rfl⟩

theorem dispatch_err {fields : List (String × JValue)} {st : RunState} {e : PyErr}
    (h : dispatchEvent fields st = .error e) :
    e = .attributeError ∨ e = .typeError := by
  unfold dispatchEvent at h
  simp only at h
  split at h
  · exact handle_assistant_err h
  · split at h
    · cases hf : flush_text_buffer st with
      | error e' =>
          rw [hf] at h
          simp only at h
          cases h
          exact Or.inr (flush_err hf)
      | ok st1 => rw [hf] at h; cases h
    · cases h

theorem handle_event_ok {ev : JValue} {st st' : RunState} {sid : Option JValue}
    (h : handle_event ev st = .ok (st', sid)) :
    st'.sessionId = st.sessionId ∧ st'.debugLog = st.debugLog ∧ st'.echoed = st.echoed := by
  cases ev with
  | jobj fields =>
      unfold handle_event at h
      simp only at h
      cases hd : dispatchEvent fields st with
      | error e => rw [hd] at h; cases h
      | ok st1 =>
          rw [hd] at h
          cases h
          exact dispatch_frame hd
  | jnull => cases h
  | jbool b => cases h
  | jnum n => cases h
  | jstr s => cases h
  | jarr xs => cases h

theorem handle_event_sid {fields : List (String × JValue)} {st st' : RunState}
    {sid : Option JValue} (h : handle_event (.jobj fields) st = .ok (st', sid)) :
    sid = objSession fields := by
  unfold handle_event at h
  simp only at h
  cases hd : dispatchEvent fields st with
  | error e => rw [hd] at h; cases h
  | ok st1 => rw [hd] at h; cases h; rfl

theorem handle_event_err {ev : JValue} {st : RunState} {e : PyErr}
    (h : handle_event ev st = .error e) :
    e = .attributeError ∨ e = .typeError := by
  cases ev with
  | jobj fields =>
      unfold handle_event at h
      simp only at h
      cases hd : dispatchEvent fields st with
      | error e' =>
          rw [hd] at h
          cases h
          exact dispatch_err hd
      | ok st1 => rw [hd] at h; cases h
  | jnull => cases h; exact Or.inl rfl
  | jbool b => cases h; exact Or.inl rfl
  | jnum n => cases h; exact Or.inl rfl
  | jstr s => cases h; exact Or.inl rfl
  | jarr xs => cases h; exact Or.inl rfl

theorem processLine_ok {st st' : RunState} {l : InLine}
    (h : processLine st l = (st', none)) :
    st'.sessionId = ((lineSession l).orElse (fun _ => st.sessionId)) ∧
    st'.debugLog = st.debugLog ++ (dbgEntry l).toList := by
  unfold processLine at h
  simp only [] at h
  cases he : (pyStrip l.text == "") with
  | true =>
      rw [he] at h
      simp only [if_true] at h
      cases h
      simp [lineSession, dbgEntry, he]
  | false =>
      rw [he] at h
      simp only [Bool.false_eq_true, if_false] at h
      cases hp : l.parsed with
      | none =>
          rw [hp] at h
          simp only at h
          cases h
          simp [lineSession, dbgEntry, he, hp]
      | some ev =>
          rw [hp] at h
          simp only at h
          cases hv : handle_event ev
            { st with debugLog := st.debugLog ++ [pyStrip l.text ++ "\n"] } with
          | error e => rw [hv] at h; cases h
          | ok out =>
              rw [hv] at h
              obtain ⟨st1, sid⟩ := out
              obtain ⟨h1, h2, _⟩ := handle_event_ok hv
              cases ev with
              | jobj fields =>
                  have hsid : sid = objSession fields := handle_event_sid hv
                  subst hsid
                  simp only at h
                  cases ho : objSession fields with
                  | none =>
                      rw [ho] at h
                      simp only [Option.isSome_none, Bool.false_eq_true, if_false] at h
                      cases h
                      simp_all [lineSession, dbgEntry, he, hp, ho, Option.orElse]
                  | some v =>
                      rw [ho] at h
                      simp only [Option.isSome_some, if_true] at h
                      cases h
                      simp_all [lineSession, dbgEntry, he, hp, ho, Option.orElse]
              | jnull => cases hv
              | jbool b => cases hv
              | jnum n => cases hv
              | jstr s => cases hv
              | jarr xs => cases hv

theorem processLine_err {st st' : RunState} {l : InLine} {e : PyErr}
    (h : processLine st l = (st', some e)) :
    e = .attributeError ∨ e = .typeError := by
  unfold processLine at h
  simp only [] at h
  cases he : (pyStrip l.text == "") with
  | true => rw [he] at h; simp only [if_true] at h; cases h
  | false =>
      rw [he] at h
      simp only [Bool.false_eq_true, if_false] at h
      cases hp : l.parsed with
      | none => rw [hp] at h; simp only at h; cases h
      | some ev =>
          rw [hp] at h
          simp only at h
          cases hv : handle_event ev
            { st with debugLog := st.debugLog ++ [pyStrip l.text ++ "\n"] } with
          | error e' =>
              rw [hv] at h
              simp only at h
              cases h
              exact handle_event_err hv
          | ok out =>
              rw [hv] at h
              obtain ⟨st1, sid⟩ := out
              simp only at h
              split at h <;> cases h

theorem processLine_unparsed {st : RunState} {l : InLine} (hp : l.parsed = none) :
    (processLine st l).2 = none ∧
    (processLine st l).1.sessionId = st.sessionId ∧
    (processLine st l).1.toolCounts = st.toolCounts ∧
    (processLine st l).1.textBuffer = st.textBuffer ∧
    (processLine st l).1.statusUpdates = st.statusUpdates ∧
    (processLine st l).1.flushed = st.flushed := by
  unfold processLine
  rw [hp]
  cases he : (pyStrip l.text == "") <;> simp [he]

theorem runLoop_none : ∀ (lines : List InLine) (st st' : RunState),
    runLoop st lines = (st', none) →
    st'.sessionId =
      lines.foldl (fun acc l => ((lineSession l).orElse (fun _ => acc))) st.sessionId ∧
    st'.debugLog = st.debugLog ++ lines.filterMap dbgEntry := by
  intro lines
  induction lines with
  | nil => intro st st' h; cases h; simp
  | cons l rest ih =>
      intro st st' h
      unfold runLoop at h
      cases hp : processLine st l with
      | mk st1 err =>
          cases err with
          | some e => rw [hp] at h; simp only at h; cases h
          | none =>
              rw [hp] at h
              simp only at h
              obtain ⟨h1, h2⟩ := processLine_ok hp
              obtain ⟨g1, g2⟩ := ih st1 st' h
              constructor
              · rw [g1, h1]
                simp [List.foldl_cons]
              · rw [g2, h2]
                simp [List.filterMap_cons]
                cases dbgEntry l <;> simp

theorem runLoop_err : ∀ (lines : List InLine) (st st' : RunState) (e : PyErr),
    runLoop st lines = (st', some e) → e = .attributeError ∨ e = .typeError := by
  intro lines
  induction lines with
  | nil => intro st st' e h; cases h
  | cons l rest ih =>
      intro st st' e h
      unfold runLoop at h
      cases hp : processLine st l with
      | mk st1 err =>
          cases err with
          | some e' =>
              rw [hp] at h
              simp only at h
              cases h
              exact processLine_err hp
          | none =>
              rw [hp] at h
              simp only at h
              exact ih st1 st' e h

theorem runLoop_unparsed : ∀ (lines : List InLine) (st : RunState),
    (∀ l ∈ lines, l.parsed = none) →
    (runLoop st lines).2 = none ∧
    (runLoop st lines).1.sessionId = st.sessionId ∧
    (runLoop st lines).1.toolCounts = st.toolCounts ∧
    (runLoop st lines).1.textBuffer = st.textBuffer := by
  intro lines
  induction lines with
  | nil => intro st _; exact ⟨rfl, rfl, rfl, rfl⟩
  | cons l rest ih =>
      intro st hall
      unfold runLoop
      cases hp : processLine st l with
      | mk st1 err =>
          have hl := @processLine_unparsed st l (hall l (by simp))
          rw [hp] at hl
          obtain ⟨he, h1, h2, h3, _, _⟩ := hl
          subst he
          simp only
          have := ih st1 (fun x hx => hall x (by simp [hx]))
          exact ⟨this.1, this.2.1.trans h1, this.2.2.1.trans h2, this.2.2.2.trans h3⟩

/-- Every run either dies on an uncaught exception (`crashRun`) or reaches
the single `write_state` and `print_session_summary` call site (`finishRun`)
with the loop having consumed every delivered line; in the latter case the
state at the call site agrees with the loop's final state on the session
identifier, the debug log and the tool counts. -/
theorem mainModel_shape (prior : StoredState) (lines : List InLine) (ending : StreamEnd)
    (wOk : Bool) :
    (∃ (st : RunState) (e : PyErr), mainModel prior lines ending wOk = crashRun st e) ∨
    (∃ (a : Int) (st stf : RunState) (ph : String),
      pyAdd1 (read_existing_attempt_count prior) = .ok a ∧
      runLoop initState lines = (st, none) ∧
      stf.sessionId = st.sessionId ∧ stf.debugLog = st.debugLog ∧
      stf.toolCounts = st.toolCounts ∧
      mainModel prior lines ending wOk = finishRun stf ph a wOk) := by
  cases hadd : pyAdd1 (read_existing_attempt_count prior) with
  | error e =>
      left
      refine ⟨initState, e, ?_⟩
      unfold mainModel
      rw [hadd]
  | ok a =>
      cases hl : runLoop initState lines with
      | mk st err =>
          cases err with
          | some e =>
              rcases runLoop_err _ _ _ _ hl with rfl | rfl
              · left
                refine ⟨st, .attributeError, ?_⟩
                unfold mainModel
                rw [hadd, hl]
                try rfl
              · left
                refine ⟨st, .typeError, ?_⟩
                unfold mainModel
                rw [hadd, hl]
                try rfl
          | none =>
              cases ending with
              | raised e =>
                  cases hc : classifyPhase e with
                  | some ph =>
                      right
                      refine ⟨a, st, st, ph, rfl, rfl, rfl, rfl, rfl, ?_⟩
                      unfold mainModel
                      rw [hadd, hl]
                      simp only
                      rw [hc]
                      try rfl
                  | none =>
                      left
                      refine ⟨st, e, ?_⟩
                      unfold mainModel
                      rw [hadd, hl]
                      simp only
                      rw [hc]
                      try rfl
              | eof =>
                  cases hf : flush_text_buffer st with
                  | ok stf =>
                      obtain ⟨f1, f2, f3, _, _, _⟩ := flush_frame hf
                      right
                      refine ⟨a, st, stf, "completed", rfl, rfl, f1, f3, f2, ?_⟩
                      unfold mainModel
                      rw [hadd, hl]
                      simp only
                      rw [hf]
                      try rfl
                  | error e =>
                      have he := flush_err hf
                      subst he
                      left
                      refine ⟨st, .typeError, ?_⟩
                      unfold mainModel
                      rw [hadd, hl]
                      simp only
                      rw [hf]
                      try rfl

/-- C2 (amended): whenever a run against a prior durable state whose read
yields the integer `n` writes a record at all, the written `attempt_count`
is `n + 1` — independently of how the stream ended and hence of which
terminal phase (`completed`, `interrupted`, `stuck`) was reached. (The
original claim also promised this when the prior record is valid JSON but
not an object, or has a non-numeric count; those runs crash before any
write, see the counterexample.) -/
theorem c2_attempt_increment (prior : StoredState) (n : Int) (lines : List InLine)
    (ending : StreamEnd) (r : SessionRecord)
    (hread : read_existing_attempt_count prior = .ok (.jnum n))
    (hw : (mainModel prior lines ending true).written = some r) :
    r.attempt_count = n + 1 := by
  rcases mainModel_shape prior lines ending true with ⟨st, e, hm⟩ |
    ⟨a, st, stf, ph, hadd, hl, h1, h2, h3, hm⟩
  · rw [hm] at hw
    simp [crashRun] at hw
  · rw [hm] at hw
    unfold finishRun at hw
    simp only [if_true] at hw
    rw [hread] at hadd
    simp only [pyAdd1, Except.ok.injEq] at hadd
    cases hw
    exact hadd.symm

/-- C2 counterexample: with a prior durable state that is valid JSON but not
an object (here the array `[]` — a corrupt record, which the claim says is
treated as count 0 and overwritten with count 1), the run crashes on the
`AttributeError` from `.get` before the loop and writes nothing. -/
theorem c2_counterexample :
    (mainModel (.json (.jarr [])) [] .eof true).written = none ∧
    (mainModel (.json (.jarr [])) [] .eof true).crashed = some .attributeError :=
  ⟨rfl, rfl⟩

/-- C2 witness: a prior record with `attempt_count = 3` leads to a written
record with `attempt_count = 4 = 3 + 1`. -/
theorem c2_attempt_increment_witness :
    ({ session_id := none, phase := "completed", attempt_count := 4 } :
      SessionRecord).attempt_count = 3 + 1 :=
  c2_attempt_increment (.json (.jobj [("attempt_count", .jnum 3)])) 3 [] .eof _ rfl rfl

/-- C5 (amended): whenever a run writes a durable record at all, the
recorded `session_id` is the last truthy `session_id` field observed across
the stream's decoded events (`none` when none was observed), independently
of the events' `type` fields; a stream containing a valid-JSON non-object
line crashes the run before any write (see the counterexample). -/
theorem c5_session_tracking (prior : StoredState) (lines : List InLine) (ending : StreamEnd)
    (r : SessionRecord)
    (hw : (mainModel prior lines ending true).written = some r) :
    r.session_id = lastSessionOf lines := by
  rcases mainModel_shape prior lines ending true with ⟨st, e, hm⟩ |
    ⟨a, st, stf, ph, hadd, hl, h1, h2, h3, hm⟩
  · rw [hm] at hw
    simp [crashRun] at hw
  · rw [hm] at hw
    unfold finishRun at hw
    simp only [if_true] at hw
    cases hw
    show stf.sessionId = lastSessionOf lines
    rw [h1]
    obtain ⟨g1, _⟩ := runLoop_none lines initState st hl
    rw [g1]
    rfl

/-- C5 counterexample: the stream whose lines are `3` (valid JSON, not an
object) and an event carrying session identifier `"abc"` has last truthy
identifier `"abc"`, but the run crashes on the first line and records
nothing. -/
theorem c5_counterexample :
    (mainModel .absent [{ text := "3", parsed := some (.jnum 3) }, sidLine "abc"]
      .eof true).written = none ∧
    lastSessionOf [{ text := "3", parsed := some (.jnum 3) }, sidLine "abc"] =
      some (.jstr "abc") :=
  ⟨rfl, rfl⟩

/-- C5 witness: on the witness stream, the recorded identifier is the last
truthy one, `"abc"`. -/
theorem c5_session_tracking_witness :
    ({ session_id := some (.jstr "abc"), phase := "completed", attempt_count := 1 } :
      SessionRecord).session_id = lastSessionOf witnessLines :=
  c5_session_tracking .absent witnessLines .eof _ rfl

/-- C6 (amended): a failed durable write leaves the in-memory state computed
by the run unchanged (the final states with and without the write failure
coincide), but — contrary to the claim — the summary is NOT printed: the
write's exception escapes `main` past `print_session_summary`, so no
summary and no record are produced. -/
theorem c6_write_failure_frame (prior : StoredState) (lines : List InLine)
    (ending : StreamEnd) :
    (mainModel prior lines ending false).summary = none ∧
    (mainModel prior lines ending false).written = none ∧
    (mainModel prior lines ending false).finalState =
      (mainModel prior lines ending true).finalState := by
  unfold mainModel
  cases hadd : pyAdd1 (read_existing_attempt_count prior) with
  | error e => exact ⟨rfl, rfl, rfl⟩
  | ok a =>
      cases hl : runLoop initState lines with
      | mk st err =>
          cases err with
          | some e =>
              cases hc : classifyPhase e with
              | some ph => simp [hc, finishRun]
              | none => simp [hc, crashRun]
          | none =>
              cases ending with
              | raised e =>
                  cases hc : classifyPhase e with
                  | some ph => simp [hc, finishRun]
                  | none => simp [hc, crashRun]
              | eof =>
                  cases hf : flush_text_buffer st with
                  | ok stf => simp [hf, finishRun]
                  | error e =>
                      cases hc : classifyPhase e with
                      | some ph => simp [hf, hc, finishRun]
                      | none => simp [hf, hc, crashRun]

/-- C6 counterexample: with a failing durable write, the run produces no
summary at all (the claim says the summary is still printed) — the write
failure escapes as an unhandled exception and nothing is written. -/
theorem c6_counterexample :
    (mainModel .absent [sidLine "abc"] .eof false).summary = none ∧
    (mainModel .absent [sidLine "abc"] .eof false).crashed = some .ioError ∧
    (mainModel .absent [sidLine "abc"] .eof false).written = none :=
  ⟨rfl, rfl, rfl⟩

/-- C8 (amended): in any run with no uncaught fault, the debug replay log
contains exactly one entry per non-blank input line — the line stripped of
surrounding whitespace plus a newline (not the verbatim bytes; see the
counterexample), with blank lines skipped — in input order. The module only
ever writes this log (it opens `EVENT_DEBUG_LOG` for writing only). -/
theorem c8_debug_log (prior : StoredState) (lines : List InLine) (ending : StreamEnd)
    (hc : (mainModel prior lines ending true).crashed = none) :
    (mainModel prior lines ending true).finalState.debugLog =
      lines.filterMap dbgEntry := by
  rcases mainModel_shape prior lines ending true with ⟨st, e, hm⟩ |
    ⟨a, st, stf, ph, hadd, hl, h1, h2, h3, hm⟩
  · rw [hm] at hc
    simp [crashRun] at hc
  · rw [hm]
    unfold finishRun
    simp only [if_true]
    show stf.debugLog = lines.filterMap dbgEntry
    rw [h2]
    obtain ⟨_, g2⟩ := runLoop_none lines initState st hl
    rw [g2]
    rfl

/-- C8 counterexample: the line `"  hello  "` is logged as `"hello\n"`, not
byte-for-byte. -/
theorem c8_counterexample :
    (mainModel .absent [{ text := "  hello  ", parsed := none }] .eof true).finalState.debugLog =
      ["hello\n"] ∧
    ("hello\n" : String) ≠ "  hello  " ++ "\n" :=
  ⟨rfl, by decide⟩

/-- C8 witness: a run over one whitespace-padded line and one blank line
logs exactly the stripped non-blank line. -/
theorem c8_debug_log_witness :
    (mainModel .absent [{ text := "  a  ", parsed := none }, { text := "", parsed := none }]
      .eof true).finalState.debugLog =
      [{ text := "  a  ", parsed := none },
       ({ text := "", parsed := none } : InLine)].filterMap dbgEntry :=
  c8_debug_log .absent _ .eof rfl

/-- C1: the durable write is not unconditional. A fault raised while
consuming the stream that matches none of the `except` clauses — here the
`AttributeError` from `event.get` on the valid-JSON non-object line `3` —
escapes `main`, and `write_state` (placed after the handlers, not in a
`finally`) never runs: the run performs zero durable writes. -/
theorem c1_uncaught_fault_skips_write :
    (mainModel .absent [{ text := "3", parsed := some (.jnum 3) }] .eof true).written = none ∧
    (mainModel .absent [{ text := "3", parsed := some (.jnum 3) }] .eof true).crashed =
      some .attributeError :=
  ⟨rfl, rfl⟩

/-- C4: `read_existing_attempt_count` does raise. On a state file containing
valid JSON of the wrong structure (the array `[1, 2]`), `.get` raises
`AttributeError`; on an unreadable file, the `OSError` is not caught by the
`FileNotFoundError` handler. Both contradict the claim (and the function's
own docstring) that it returns 0 and never raises. -/
theorem c4_read_raises_on_invalid_structure :
    read_existing_attempt_count (.json (.jarr [.jnum 1, .jnum 2])) = .error .attributeError ∧
    read_existing_attempt_count .unreadable = .error .ioError :=
  ⟨rfl, rfl⟩

/-- C3 counterexample: `write_state` has no rename step, and between its two
filesystem operations a concurrent reader of the target path observes the
empty string — which is neither the prior record nor the final serialized
record, i.e. a half-written state. -/
theorem c3_counterexample :
    hasRename (write_state_ops (some (.jstr "abc")) "completed" 2 "TS") = false ∧
    observableContents [(STATE_FILE, "OLDRECORD")]
        (write_state_ops (some (.jstr "abc")) "completed" 2 "TS") STATE_FILE =
      [some "", some (serializeState (some (.jstr "abc")) "completed" 2 "TS")] ∧
    serializeState (some (.jstr "abc")) "completed" 2 "TS" ≠ "" ∧
    ("" : String) ≠ "OLDRECORD" :=
  ⟨rfl, rfl, by decide, by decide⟩

/-- C3 (amended): for every record and every prior filesystem content, the
durable write is a bare overwrite — truncate the target in place, then write
the serialized bytes, with no temporary file and no rename — so a concurrent
reader can observe the intermediate empty file. -/
theorem c3_bare_overwrite (side : Option JValue) (phase : String) (attempt : Int)
    (ts : String) (fs : List (String × String)) :
    hasRename (write_state_ops side phase attempt ts) = false ∧
    observableContents fs (write_state_ops side phase attempt ts) STATE_FILE =
      [some "", some (serializeState side phase attempt ts)] := by
  constructor
  · rfl
  · simp [write_state_ops, observableContents, stepFS, fsGet, fsSet]

/-- C7: a stream of entirely unparseable lines followed by natural
end-of-input completes normally: no exception escapes, the durable record
has `phase = "completed"` and a null `session_id` with the usual attempt
increment, and the summary is the distinct no-session-captured message with
no tools line — not a fault. -/
theorem c7_unparseable_stream_completes (prior : StoredState) (n : Int) (lines : List InLine)
    (hread : read_existing_attempt_count prior = .ok (.jnum n))
    (hun : ∀ l ∈ lines, l.parsed = none) :
    (mainModel prior lines .eof true).written =
      some { session_id := none, phase := "completed", attempt_count := n + 1 } ∧
    (mainModel prior lines .eof true).crashed = none ∧
    (mainModel prior lines .eof true).summary =
      some { toolsLine := none, savedSession := none } := by
  obtain ⟨hz, hsid, htools, hbuf⟩ := runLoop_unparsed lines initState hun
  cases hl : runLoop initState lines with
  | mk st err =>
      rw [hl] at hz hsid htools hbuf
      simp only at hz hsid htools hbuf
      subst hz
      have hf : flush_text_buffer st = .ok st := flush_empty hbuf
      unfold mainModel
      rw [hread]
      simp only [pyAdd1]
      rw [hl]
      simp only
      rw [hf]
      simp [finishRun, hsid, htools, initState, print_session_summary]

/-- C7 witness: one unparseable line, fresh state. -/
theorem c7_unparseable_stream_completes_witness :
    (mainModel .absent [{ text := "hello world", parsed := none }] .eof true).written =
      some { session_id := none, phase := "completed", attempt_count := 0 + 1 } ∧
    (mainModel .absent [{ text := "hello world", parsed := none }] .eof true).crashed = none ∧
    (mainModel .absent [{ text := "hello world", parsed := none }] .eof true).summary =
      some { toolsLine := none, savedSession := none } :=
  c7_unparseable_stream_completes .absent 0 _ rfl
    (by intro l hl; simp at hl; subst hl; rfl)

/-- C9: three tool-invocation events naming `A`, `A`, `B` (with `A ≠ B`)
leave final per-tool counts `A ↦ 2`, `B ↦ 1`, in first-seen order, and the
rendered tally lists `A x2` before `B`. -/
theorem c9_tool_tally (A B : String) (h : A ≠ B) :
    (mainModel .absent [toolLine A, toolLine A, toolLine B] .eof true).finalState.toolCounts =
      [(.jstr A, 2), (.jstr B, 1)] ∧
    summary_parts [(.jstr A, 2), (.jstr B, 1)] = [A ++ " x2", B] := by
  have hAB : (A == B) = false := beq_eq_false_iff_ne.mpr h
  constructor
  · simp [mainModel, read_existing_attempt_count, pyAdd1, runLoop, processLine, toolLine,
          pyStrip, handle_event, dispatchEvent, handle_assistant_event, runBlocks,
          handle_block, flush_text_buffer, pyIter, pyJoin, jgetD, jget, isStr, objSession,
          pyTruthy, hashableKey, bumpCount, keyEq, initState, finishRun, hAB]
  · simp [summary_parts, pyStr]
    rw [String.append_assoc]
    rfl

/-- C9 witness: the concrete names `"A"` and `"B"`. -/
theorem c9_tool_tally_witness :
    (mainModel .absent [toolLine "A", toolLine "A", toolLine "B"] .eof true).finalState.toolCounts =
      [(.jstr "A", 2), (.jstr "B", 1)] ∧
    summary_parts [(.jstr "A", 2), (.jstr "B", 1)] = ["A" ++ " x2", "B"] :=
  c9_tool_tally "A" "B" (by decide)

/-- C10: handling an event whose `type` field is `tool_result` leaves the
per-tool invocation counts unchanged, while flushing the text buffer and
refreshing the status display once. -/
theorem c10_tool_result_preserves_counts (fields : List (String × JValue)) (st : RunState)
    (out : RunState × Option JValue)
    (htype : jgetD fields "type" (.jstr "") = .jstr "tool_result")
    (h : handle_event (.jobj fields) st = .ok out) :
    out.1.toolCounts = st.toolCounts ∧ out.1.textBuffer = [] ∧
    out.1.statusUpdates = st.statusUpdates + 1 := by
  unfold handle_event at h
  simp only at h
  cases hd : dispatchEvent fields st with
  | error e => rw [hd] at h; cases h
  | ok st1 =>
      rw [hd] at h
      cases h
      unfold dispatchEvent at hd
      simp only at hd
      rw [htype] at hd
      rw [show isStr (.jstr "tool_result") "assistant" = false from rfl,
          show isStr (.jstr "tool_result") "tool_result" = true from rfl] at hd
      simp only [Bool.false_eq_true, if_false, if_true] at hd
      cases hf : flush_text_buffer st with
      | error e => rw [hf] at hd; cases hd
      | ok st2 =>
          rw [hf] at hd
          simp only at hd
          cases hd
          obtain ⟨_, f2, _, _, f5, f6⟩ := flush_frame hf
          exact ⟨f2, f6, by rw [f5]⟩

/-- C10 witness: a `tool_result` event processed from a state with a pending
fragment and an existing `Bash ↦ 2` count. -/
theorem c10_tool_result_preserves_counts_witness :
    c10Out.1.toolCounts = c10State.toolCounts ∧ c10Out.1.textBuffer = [] ∧
    c10Out.1.statusUpdates = c10State.statusUpdates + 1 :=
  c10_tool_result_preserves_counts [("type", .jstr "tool_result")] c10State c10Out rfl rfl

end DisplayProgress
